import Mathlib

/-!
Verification of `server.js` (SIP call + Smart Chat demo backend).

The development shallowly embeds the server's chat pipeline, login endpoint
and upload endpoint.  JavaScript runtime values that can appear in a
socket.io payload or a JSON request body are modelled by `JSValue`; numbers
are modelled by `Int` (no floating point is needed for any claim, and `NaN`
does not arise from the constructs involved).  The external sentiment
analyzer (`new Sentiment()`, an npm dependency) is an opaque parameter
`analyze : JSValue → Except Unit Int` that may throw; the server clock
(`new Date().toISOString()` and `Date.now()`) is passed in as an explicit
parameter at each event.
-/

namespace SIPChat

/-- A JavaScript runtime value, as can arrive in a socket.io payload or a
parsed JSON body: `undefined`, `null`, booleans, numbers, strings, objects. -/
inductive JSValue where
  | undefined
  | null
  | bool (b : Bool)
  | num (n : Int)
  | str (s : String)
  | obj (fields : List (String × JSValue))

/-- JavaScript truthiness: `undefined`, `null`, `false`, `0` and `""` are
falsy; every other value (in our fragment) is truthy. -/
def truthy : JSValue → Bool
  | .undefined => false
  | .null => false
  | .bool b => b
  | .num n => n != 0
  | .str s => s.length != 0
  | .obj _ => true

/-- A thrown JavaScript exception.  Property access on `null`/`undefined`
raises a `TypeError`. -/
inductive JSError where
  | typeError
deriving DecidableEq

/-- JavaScript property access `v.name`: throws a `TypeError` on `null` and
`undefined`; yields the field's value on an object that has it, and
`undefined` on objects without the field and on primitive values. -/
def getField (v : JSValue) (name : String) : Except JSError JSValue :=
  match v with
  | .undefined => .error .typeError
  | .null => .error .typeError
  | .obj fields =>
      .ok (match fields.lookup name with
           | some x => x
           | none => .undefined)
  | _ => .ok .undefined

/-- JavaScript `a || b`: `a` when `a` is truthy, otherwise `b`. -/
def jsOr (a b : JSValue) : JSValue :=
  if truthy a then a else b

/-- A chat record as built by the `chatMessage` handler in `server.js`
(the local `safeMsg` object).  Fields hold whatever JavaScript value the
normalization produced. -/
structure ChatMessage where
  sender : JSValue
  text : JSValue
  fileUrl : JSValue
  timestamp : JSValue
  sentiment : Int

/-- `try { result = sentiment.analyze(text); score } catch { 0 }`:
the analyzer's score on the normalized text, or `0` if it throws. -/
def scoreOf (analyze : JSValue → Except Unit Int) (text : JSValue) : Int :=
  match analyze text with
  | .ok s => s
  | .error _ => 0

/-- The normalized record the handler builds once the four field accesses
succeed: `{ sender: msg.sender || "Anonymous", text: msg.text || "",
fileUrl: msg.fileUrl || null, timestamp: msg.timestamp || now }` together
with the sentiment score.  `sv, tv, fv, tsv` are the accessed field values. -/
def buildSafeMsg (analyze : JSValue → Except Unit Int)
    (sv tv fv tsv : JSValue) (now : String) : ChatMessage :=
  let text := jsOr tv (.str "")
  { sender := jsOr sv (.str "Anonymous")
    text := text
    fileUrl := jsOr fv .null
    timestamp := jsOr tsv (.str now)
    sentiment := scoreOf analyze text }

/-- The `safeMsg` record built from a payload, as a total function of the
payload's fields (used to describe the handler's successful result). -/
def safeMsg (analyze : JSValue → Except Unit Int)
    (msg : JSValue) (now : String) : ChatMessage :=
  buildSafeMsg analyze
    ((getField msg "sender").toOption.getD .undefined)
    ((getField msg "text").toOption.getD .undefined)
    ((getField msg "fileUrl").toOption.getD .undefined)
    ((getField msg "timestamp").toOption.getD .undefined)
    now

/-- The body of `socket.on("chatMessage", (msg) => …)`: access the four
fields of `msg` (each access can throw a `TypeError` when `msg` is
`null`/`undefined`), normalize falsy fields to their defaults, score the
normalized text (a scoring failure is absorbed as `0`), and return the
record that is then appended and broadcast.  `now` is the server clock's
ISO-8601 reading (`new Date().toISOString()`) at handling time. -/
def chatMessageHandler (analyze : JSValue → Except Unit Int)
    (msg : JSValue) (now : String) : Except JSError ChatMessage := do
  let sv ← getField msg "sender"
  let tv ← getField msg "text"
  let fv ← getField msg "fileUrl"
  let tsv ← getField msg "timestamp"
  .ok (buildSafeMsg analyze sv tv fv tsv now)

/-- An event delivered to a connected client: the `chatHistory` replay sent
once at connection, or a live `chatMessage` broadcast. -/
inductive ClientEvent where
  | historyEv (msgs : List ChatMessage)
  | messageEv (m : ChatMessage)

/-- The server's in-memory state: the `chatHistory` array, the set of
currently connected socket ids, the ordered list of events delivered to each
socket id so far, and the names of the files stored in the uploads
directory. -/
structure ServerState where
  chatHistory : List ChatMessage
  connected : List Nat
  delivered : Nat → List ClientEvent
  uploads : List String

/-- The empty state at process start. -/
def initState : ServerState :=
  { chatHistory := [], connected := [], delivered := fun _ => [], uploads := [] }

/-- An external stimulus to the realtime hub: a socket connecting, an
inbound `chatMessage` event from a socket (with the clock reading at that
moment), or a socket disconnecting. -/
inductive SEvent where
  | connect (c : Nat)
  | chatMsg (src : Nat) (payload : JSValue) (now : String)
  | disconnect (c : Nat)

/-- One step of the socket.io part of `server.js`.

* `connect c`: the server sends `socket.emit("chatHistory", chatHistory)`
  to the new socket only.
* `chatMsg src payload now`: the `chatMessage` handler runs; on success the
  record is pushed onto `chatHistory` and `io.emit` delivers it to every
  currently connected socket (the originator included).  If the handler
  throws (nullish payload) nothing is appended or delivered.
* `disconnect c`: the socket is removed; no shared state is touched. -/
def step (analyze : JSValue → Except Unit Int)
    (st : ServerState) : SEvent → ServerState
  | .connect c =>
      { st with
        connected := c :: st.connected
        delivered := fun d =>
          if d = c then st.delivered d ++ [.historyEv st.chatHistory]
          else st.delivered d }
  | .chatMsg _ payload now =>
      match chatMessageHandler analyze payload now with
      | .error _ => st
      | .ok m =>
          { st with
            chatHistory := st.chatHistory ++ [m]
            delivered := fun d =>
              if d ∈ st.connected then st.delivered d ++ [.messageEv m]
              else st.delivered d }
  | .disconnect c =>
      { st with connected := st.connected.erase c }

/-- Run a sequence of events through `step`. -/
def runEvents (analyze : JSValue → Except Unit Int)
    (st : ServerState) : List SEvent → ServerState
  | [] => st
  | e :: es => runEvents analyze (step analyze st e) es

/-- The chat messages among a client's delivered events, in delivery
order (the `chatHistory` replay event is not a live message). -/
def msgEvents (l : List ClientEvent) : List ChatMessage :=
  l.filterMap fun e =>
    match e with
    | .messageEv m => some m
    | _ => none

/-! ### Login endpoint (`POST /api/login`) -/

/-- The static in-memory user database of `server.js` (email, password). -/
def users : List (String × String) :=
  [("user@example.com", "mypassword"),
   ("24qm5a6701@gmail.com", "Prashanth@123")]

/-- JavaScript strict equality `s === v` between a known string `s` (a table
entry) and an arbitrary runtime value `v`: true exactly when `v` is the same
string. -/
def eqStrJS (s : String) (v : JSValue) : Bool :=
  match v with
  | .str t => s == t
  | _ => false

/-- The JSON body a login response carries. -/
structure LoginRes where
  status : Nat
  success : Bool
  message : Option String
deriving DecidableEq

/-- The `POST /api/login` handler: destructure `email` and `password` from
the body; if either is falsy answer the required-fields message; otherwise
look the exact pair up in `users` (`===` on both components).  Every branch
answers with `res.json`, i.e. HTTP status 200. -/
def apiLogin (tbl : List (String × String))
    (email password : JSValue) : LoginRes :=
  if !truthy email || !truthy password then
    { status := 200, success := false, message := some "Email and password required" }
  else
    match tbl.find? (fun u => eqStrJS u.1 email && eqStrJS u.2 password) with
    | some _ => { status := 200, success := true, message := none }
    | none => { status := 200, success := false, message := some "Invalid email or password" }

/-! ### Upload endpoint (`POST /api/upload`) -/

/-- `originalname.replace(/\s+/g, "_")` on an exploded string: each maximal
run of whitespace becomes a single underscore.  `inRun` records whether the
previous character was part of a whitespace run. -/
def replaceWsRuns : Bool → List Char → List Char
  | _, [] => []
  | inRun, c :: rest =>
      if c.isWhitespace then
        (if inRun then [] else ['_']) ++ replaceWsRuns true rest
      else
        c :: replaceWsRuns false rest

/-- `originalname.replace(/\s+/g, "_")` (JavaScript `\s` is modelled by
`Char.isWhitespace`). -/
def replaceWs (s : String) : String :=
  ⟨replaceWsRuns false s.data⟩

/-- The generated storage name of the multer `filename` callback:
`Date.now() + "-" + file.originalname.replace(/\s+/g, "_")`.  `now` is the
millisecond clock reading `Date.now()`. -/
def safeName (now : Nat) (originalname : String) : String :=
  toString now ++ "-" ++ replaceWs originalname

/-- The file part multer extracted from the multipart body, when present. -/
structure UploadFile where
  originalname : String

/-- A JSON response body of the upload endpoint. -/
inductive ResBody where
  | errorBody (msg : String)
  | fileUrlBody (url : String)
deriving DecidableEq

/-- An HTTP response: status code and JSON body. -/
structure HttpRes where
  status : Nat
  body : ResBody
deriving DecidableEq

/-- The `POST /api/upload` route with its multer middleware, on the path
where storage succeeds.  With no file part nothing was stored and the
handler answers `400 {error: "No file uploaded"}`; with a file part multer
has written it under `safeName` and the handler answers
`200 {fileUrl: "/uploads/" + filename}`.  `now` is `Date.now()` at storage
time.  The chat log is never touched. -/
def apiUpload (file : Option UploadFile) (now : Nat)
    (st : ServerState) : HttpRes × ServerState :=
  match file with
  | none => ({ status := 400, body := .errorBody "No file uploaded" }, st)
  | some f =>
      let name := safeName now f.originalname
      ({ status := 200, body := .fileUrlBody ("/uploads/" ++ name) },
       { st with uploads := st.uploads ++ [name] })

/-! ### Helper lemmas about the chat pipeline -/

/-- A payload is nullish when it is `null` or `undefined`; property access
throws exactly on these. -/
def isNullish : JSValue → Bool
  | .null => true
  | .undefined => true
  | _ => false

theorem chatMessageHandler_ok (analyze : JSValue → Except Unit Int)
    (msg : JSValue) (now : String) (h : isNullish msg = false) :
    chatMessageHandler analyze msg now = .ok (safeMsg analyze msg now) := by
  cases msg <;> first | rfl | simp [isNullish] at h

theorem chatMessageHandler_nullish (analyze : JSValue → Except Unit Int)
    (msg : JSValue) (now : String) (h : isNullish msg = true) :
    chatMessageHandler analyze msg now = .error .typeError := by
  cases msg <;> first | rfl | simp [isNullish] at h

theorem step_chat_ok (analyze : JSValue → Except Unit Int)
    (st : ServerState) (src : Nat) (payload : JSValue) (now : String)
    (m : ChatMessage) (h : chatMessageHandler analyze payload now = .ok m) :
    step analyze st (.chatMsg src payload now)
      = { st with
          chatHistory := st.chatHistory ++ [m]
          delivered := fun d =>
            if d ∈ st.connected then st.delivered d ++ [.messageEv m]
            else st.delivered d } := by
  simp [step, h]

theorem runEvents_chat (analyze : JSValue → Except Unit Int) (src : Nat) :
    ∀ (inputs : List (JSValue × String)) (st : ServerState),
      (∀ p ∈ inputs, isNullish p.1 = false) →
      (runEvents analyze st
          (inputs.map fun p => SEvent.chatMsg src p.1 p.2)).chatHistory
        = st.chatHistory ++ inputs.map fun p => safeMsg analyze p.1 p.2 := by
  intro inputs
  induction inputs with
  | nil => intro st _; simp [runEvents]
  | cons p ps ih =>
      intro st h
      have hp : isNullish p.1 = false := h p (List.mem_cons_self p ps)
      have hps : ∀ q ∈ ps, isNullish q.1 = false :=
        fun q hq => h q (List.mem_cons_of_mem p hq)
      simp only [List.map_cons, runEvents,
        step_chat_ok analyze st src p.1 p.2 (safeMsg analyze p.1 p.2)
          (chatMessageHandler_ok analyze p.1 p.2 hp)]
      rw [ih _ hps]
      simp [List.append_assoc]

/-- The per-client order invariant: the live chat messages delivered to any
client form a sublist (order-preserving selection) of the chat log. -/
def deliveredInv (st : ServerState) : Prop :=
  ∀ c, List.Sublist (msgEvents (st.delivered c)) st.chatHistory

theorem msgEvents_append (l1 l2 : List ClientEvent) :
    msgEvents (l1 ++ l2) = msgEvents l1 ++ msgEvents l2 := by
  simp [msgEvents, List.filterMap_append]

theorem step_preserves_deliveredInv (analyze : JSValue → Except Unit Int)
    (st : ServerState) (e : SEvent) (h : deliveredInv st) :
    deliveredInv (step analyze st e) := by
  cases e with
  | connect c =>
      intro d
      simp only [step]
      by_cases hd : d = c
      · subst hd
        rw [if_pos rfl, msgEvents_append]
        have hnil : msgEvents [ClientEvent.historyEv st.chatHistory] = [] := rfl
        rw [hnil, List.append_nil]
        exact h d
      · rw [if_neg hd]
        exact h d
  | chatMsg src payload now =>
      cases hh : chatMessageHandler analyze payload now with
      | error err => intro d; simp only [step, hh]; exact h d
      | ok m =>
          intro d
          simp only [step, hh]
          by_cases hd : d ∈ st.connected
          · rw [if_pos hd, msgEvents_append]
            exact (h d).append (List.Sublist.refl _)
          · rw [if_neg hd]
            exact (h d).trans (List.sublist_append_left _ _)
  | disconnect c => intro d; exact h d

theorem runEvents_preserves_deliveredInv (analyze : JSValue → Except Unit Int) :
    ∀ (events : List SEvent) (st : ServerState), deliveredInv st →
      deliveredInv (runEvents analyze st events) := by
  intro events
  induction events with
  | nil => intro st h; exact h
  | cons e es ih =>
      intro st h
      exact ih _ (step_preserves_deliveredInv analyze st e h)

theorem initState_deliveredInv : deliveredInv initState := by
  intro c
  simp [initState, msgEvents]

/-! ### Decimal representation facts (for filename uniqueness) -/

/-- Numeric value of a decimal digit character. -/
def digitVal (c : Char) : Nat := c.toNat - '0'.toNat

/-- Value of a big-endian list of decimal digit characters. -/
def valOfDigits : List Char → Nat
  | [] => 0
  | c :: cs => digitVal c * 10 ^ cs.length + valOfDigits cs

theorem digitVal_digitChar (n : Nat) (h : n < 10) :
    digitVal (Nat.digitChar n) = n := by
  interval_cases n <;> decide

theorem valOfDigits_toDigitsCore :
    ∀ (fuel n : Nat) (ds : List Char), n < fuel →
      valOfDigits (Nat.toDigitsCore 10 fuel n ds)
        = n * 10 ^ ds.length + valOfDigits ds := by
  intro fuel
  induction fuel with
  | zero => intro n ds h; exact absurd h (Nat.not_lt_zero n)
  | succ f ih =>
      intro n ds h
      simp only [Nat.toDigitsCore]
      by_cases h0 : n / 10 = 0
      · rw [if_pos h0]
        have hn : n < 10 := by omega
        rw [valOfDigits, digitVal_digitChar _ (Nat.mod_lt n (by norm_num))]
        have : n % 10 = n := Nat.mod_eq_of_lt hn
        rw [this]
      · rw [if_neg h0]
        have hlt : n / 10 < f := by omega
        rw [ih (n / 10) (Nat.digitChar (n % 10) :: ds) hlt]
        rw [valOfDigits, digitVal_digitChar _ (Nat.mod_lt n (by omega))]
        have key : n * 10 ^ ds.length
            = (n / 10) * 10 ^ (ds.length + 1) + (n % 10) * 10 ^ ds.length := by
          conv_lhs => rw [← Nat.div_add_mod n 10]
          ring
        simp only [List.length_cons]
        omega

theorem valOfDigits_repr (n : Nat) : valOfDigits (Nat.repr n).data = n := by
  show valOfDigits (Nat.toDigitsCore 10 (n + 1) n []) = n
  rw [valOfDigits_toDigitsCore (n + 1) n [] (Nat.lt_succ_self n)]
  simp [valOfDigits]

theorem mem_toDigitsCore :
    ∀ (fuel n : Nat) (ds : List Char) (c : Char),
      c ∈ Nat.toDigitsCore 10 fuel n ds →
      c ∈ ds ∨ ∃ k, k < 10 ∧ c = Nat.digitChar k := by
  intro fuel
  induction fuel with
  | zero => intro n ds c hc; exact Or.inl hc
  | succ f ih =>
      intro n ds c hc
      simp only [Nat.toDigitsCore] at hc
      by_cases h0 : n / 10 = 0
      · rw [if_pos h0] at hc
        rcases List.mem_cons.1 hc with h | h
        · exact Or.inr ⟨n % 10, Nat.mod_lt n (by omega), h⟩
        · exact Or.inl h
      · rw [if_neg h0] at hc
        rcases ih (n / 10) (Nat.digitChar (n % 10) :: ds) c hc with h | h
        · rcases List.mem_cons.1 h with h' | h'
          · exact Or.inr ⟨n % 10, Nat.mod_lt n (by omega), h'⟩
          · exact Or.inl h'
        · exact Or.inr h

theorem dash_not_mem_repr (n : Nat) : '-' ∉ (Nat.repr n).data := by
  intro h
  have h' : ('-' : Char) ∈ Nat.toDigitsCore 10 (n + 1) n [] := h
  rcases mem_toDigitsCore (n + 1) n [] '-' h' with h'' | ⟨k, hk, he⟩
  · exact absurd h'' (List.not_mem_nil _)
  · interval_cases k <;> exact absurd he (by decide)

theorem append_cons_dash_inj :
    ∀ (xs ys as bs : List Char), '-' ∉ xs → '-' ∉ ys →
      xs ++ '-' :: as = ys ++ '-' :: bs → xs = ys ∧ as = bs := by
  intro xs
  induction xs with
  | nil =>
      intro ys as bs _ hy h
      cases ys with
      | nil => simpa using h
      | cons y ys' =>
          simp only [List.nil_append, List.cons_append, List.cons.injEq] at h
          exact absurd (h.1 ▸ List.mem_cons_self y ys') hy
  | cons x xs' ih =>
      intro ys as bs hx hy h
      cases ys with
      | nil =>
          simp only [List.cons_append, List.nil_append, List.cons.injEq] at h
          exact absurd (h.1 ▸ List.mem_cons_self x xs') hx
      | cons y ys' =>
          simp only [List.cons_append, List.cons.injEq] at h
          have hx' : '-' ∉ xs' := fun hm => hx (List.mem_cons_of_mem x hm)
          have hy' : '-' ∉ ys' := fun hm => hy (List.mem_cons_of_mem y hm)
          rcases ih ys' as bs hx' hy' h.2 with ⟨h1, h2⟩
          exact ⟨by rw [h.1, h1], h2⟩

theorem safeName_data (now : Nat) (o : String) :
    (safeName now o).data = (Nat.repr now).data ++ '-' :: (replaceWs o).data := by
  show (toString now ++ "-" ++ replaceWs o).data = _
  rw [String.data_append, String.data_append, List.append_assoc]
  rfl

theorem safeName_inj (n1 n2 : Nat) (o1 o2 : String)
    (h : safeName n1 o1 = safeName n2 o2) :
    n1 = n2 ∧ replaceWs o1 = replaceWs o2 := by
  have hd := congrArg String.data h
  rw [safeName_data, safeName_data] at hd
  rcases append_cons_dash_inj _ _ _ _ (dash_not_mem_repr n1) (dash_not_mem_repr n2) hd
    with ⟨h1, h2⟩
  refine ⟨?_, ?_⟩
  · rw [← valOfDigits_repr n1, ← valOfDigits_repr n2, h1]
  · exact String.ext h2

theorem replaceWsRuns_no_ws :
    ∀ (cs : List Char) (b : Bool) (c : Char),
      c ∈ replaceWsRuns b cs → c.isWhitespace = false := by
  intro cs
  induction cs with
  | nil => intro b c hc; simp [replaceWsRuns] at hc
  | cons x rest ih =>
      intro b c hc
      simp only [replaceWsRuns] at hc
      by_cases hx : x.isWhitespace
      · rw [if_pos hx] at hc
        rcases List.mem_append.1 hc with h | h
        · cases b with
          | true => simp at h
          | false =>
              have : c = '_' := by simpa using h
              rw [this]; decide
        · exact ih true c h
      · rw [if_neg hx] at hc
        rcases List.mem_cons.1 hc with h | h
        · rw [h]; exact Bool.eq_false_iff.2 hx
        · exact ih false c h

/-! ### Concrete instances used by witnesses -/

/-- A concrete analyzer that scores every text `1`. -/
def okAnalyze : JSValue → Except Unit Int := fun _ => .ok 1

/-- A concrete analyzer that always throws. -/
def failAnalyze : JSValue → Except Unit Int := fun _ => .error ()

/-- A concrete state with two connected clients and an empty log. -/
def wState : ServerState :=
  { chatHistory := [], connected := [0, 1], delivered := fun _ => [], uploads := [] }

/-! ### Claims -/

/-- Claim C1 (amended: the payloads must not be `null`/`undefined`; the
handler's field accesses throw on nullish payloads and nothing is appended
then — see the counterexample).  Handling a sequence of N inbound
`chatMessage` events with non-nullish payloads sequentially appends exactly
the N normalized records to the ChatLog in submission order, so the log
afterwards has length old + N; and a client connecting at any point is sent a
`chatHistory` replay equal to exactly the ChatLog contents at connection
time. -/
theorem chatlog_append_and_replay
    (analyze : JSValue → Except Unit Int) (src : Nat)
    (inputs : List (JSValue × String)) (st : ServerState)
    (h : ∀ p ∈ inputs, isNullish p.1 = false) :
    ((runEvents analyze st (inputs.map fun p => SEvent.chatMsg src p.1 p.2)).chatHistory
        = st.chatHistory ++ inputs.map fun p => safeMsg analyze p.1 p.2)
    ∧ ((runEvents analyze st (inputs.map fun p => SEvent.chatMsg src p.1 p.2)).chatHistory.length
        = st.chatHistory.length + inputs.length)
    ∧ (∀ c, (step analyze st (.connect c)).delivered c
        = st.delivered c ++ [.historyEv st.chatHistory]) := by
  refine ⟨runEvents_chat analyze src inputs st h, ?_, ?_⟩
  · rw [runEvents_chat analyze src inputs st h]
    simp
  · intro c
    simp [step]

/-- Witness for C1 at a concrete two-message run from the empty state. -/
theorem chatlog_append_and_replay_witness :
    ((runEvents okAnalyze initState
        ([((JSValue.obj [("text", JSValue.str "hi")]), "T1"),
          ((JSValue.obj []), "T2")].map fun p => SEvent.chatMsg 0 p.1 p.2)).chatHistory
      = initState.chatHistory
        ++ [((JSValue.obj [("text", JSValue.str "hi")]), "T1"),
            ((JSValue.obj []), "T2")].map fun p => safeMsg okAnalyze p.1 p.2)
    ∧ ((runEvents okAnalyze initState
        ([((JSValue.obj [("text", JSValue.str "hi")]), "T1"),
          ((JSValue.obj []), "T2")].map fun p => SEvent.chatMsg 0 p.1 p.2)).chatHistory.length
      = initState.chatHistory.length
        + ([((JSValue.obj [("text", JSValue.str "hi")]), "T1"),
            ((JSValue.obj []), "T2")] : List (JSValue × String)).length)
    ∧ (∀ c, (step okAnalyze initState (.connect c)).delivered c
        = initState.delivered c ++ [.historyEv initState.chatHistory]) :=
  chatlog_append_and_replay okAnalyze 0
    [((JSValue.obj [("text", JSValue.str "hi")]), "T1"), ((JSValue.obj []), "T2")]
    initState (by decide)

/-- Claim C1, counterexample to the unamended statement: a sequence of one
inbound `chatMessage` event whose payload is `null` leaves the ChatLog of
length 0, not 1 (the field access `msg.sender` throws a `TypeError`). -/
theorem chatlog_null_payload_counterexample :
    (runEvents okAnalyze initState
        [.chatMsg 0 .null "2026-01-01T00:00:00.000Z"]).chatHistory.length = 0
    ∧ (0 : Nat) ≠ 1 :=
  ⟨rfl, by decide⟩

/-- Claim C2: when an inbound `chatMessage` event is handled successfully,
the normalized record is appended to the ChatLog and the same record is
delivered as a `chatMessage` event to every currently connected client (the
originator, being connected, included); and over any run from the initial
state, the live messages any client received form a sublist of the ChatLog,
i.e. broadcast order equals append order: a client that received a message
received it before every later-appended message it received. -/
theorem chat_broadcast_matches_append
    (analyze : JSValue → Except Unit Int) (st : ServerState)
    (src : Nat) (payload : JSValue) (now : String) (m : ChatMessage)
    (h : chatMessageHandler analyze payload now = .ok m) :
    ((step analyze st (.chatMsg src payload now)).chatHistory = st.chatHistory ++ [m]
      ∧ ∀ c, c ∈ st.connected →
          (step analyze st (.chatMsg src payload now)).delivered c
            = st.delivered c ++ [.messageEv m])
    ∧ ∀ (events : List SEvent) (c : Nat),
        List.Sublist (msgEvents ((runEvents analyze initState events).delivered c))
          (runEvents analyze initState events).chatHistory := by
  constructor
  · rw [step_chat_ok analyze st src payload now m h]
    exact ⟨rfl, fun c hc => by simp [hc]⟩
  · intro events c
    exact runEvents_preserves_deliveredInv analyze events initState initState_deliveredInv c

/-- Witness for C2: a concrete broadcast to the two connected clients of
`wState`, checked for client 0, plus the order property on a concrete run. -/
theorem chat_broadcast_matches_append_witness :
    (((step okAnalyze wState (.chatMsg 0 (.obj []) "T")).chatHistory
        = wState.chatHistory ++ [safeMsg okAnalyze (.obj []) "T"]
      ∧ ∀ c, c ∈ wState.connected →
          (step okAnalyze wState (.chatMsg 0 (.obj []) "T")).delivered c
            = wState.delivered c ++ [.messageEv (safeMsg okAnalyze (.obj []) "T")])
      ∧ ∀ (events : List SEvent) (c : Nat),
          List.Sublist (msgEvents ((runEvents okAnalyze initState events).delivered c))
            (runEvents okAnalyze initState events).chatHistory) :=
  chat_broadcast_matches_append okAnalyze wState 0 (.obj []) "T"
    (safeMsg okAnalyze (.obj []) "T") rfl

/-- Claim C3: for a handled (non-nullish) chat message, the record's
`sentiment` equals the analyzer's score on the normalized text when the
analyzer returns, and `0` when the analyzer throws; in the throwing case the
record is still appended to the log and broadcast to every connected
client. -/
theorem sentiment_score_or_zero
    (analyze : JSValue → Except Unit Int) (payload : JSValue) (now : String)
    (h : isNullish payload = false) :
    (∀ s, analyze (safeMsg analyze payload now).text = Except.ok s →
        (safeMsg analyze payload now).sentiment = s)
    ∧ (analyze (safeMsg analyze payload now).text = Except.error () →
        (safeMsg analyze payload now).sentiment = 0)
    ∧ ∀ (st : ServerState) (src : Nat),
        chatMessageHandler analyze payload now = .ok (safeMsg analyze payload now)
        ∧ (step analyze st (.chatMsg src payload now)).chatHistory
            = st.chatHistory ++ [safeMsg analyze payload now]
        ∧ ∀ c, c ∈ st.connected →
            (step analyze st (.chatMsg src payload now)).delivered c
              = st.delivered c ++ [.messageEv (safeMsg analyze payload now)] := by
  have hsent : (safeMsg analyze payload now).sentiment
      = scoreOf analyze ((safeMsg analyze payload now).text) := rfl
  refine ⟨?_, ?_, ?_⟩
  · intro s hs
    rw [hsent]
    simp only [scoreOf, hs]
  · intro hs
    rw [hsent]
    simp only [scoreOf, hs]
  · intro st src
    have hok := chatMessageHandler_ok analyze payload now h
    refine ⟨hok, ?_, ?_⟩
    · rw [step_chat_ok analyze st src payload now _ hok]
    · intro c hc
      rw [step_chat_ok analyze st src payload now _ hok]
      simp [hc]

/-- Witness for C3: with the always-throwing analyzer the stored score is 0
and the record is still appended; with the constant-1 analyzer the score
is 1. -/
theorem sentiment_score_or_zero_witness :
    (safeMsg failAnalyze (.obj [("text", .str "x")]) "T").sentiment = 0
    ∧ (safeMsg okAnalyze (.obj [("text", .str "x")]) "T").sentiment = 1
    ∧ (step failAnalyze wState
          (.chatMsg 0 (.obj [("text", .str "x")]) "T")).chatHistory
        = wState.chatHistory ++ [safeMsg failAnalyze (.obj [("text", .str "x")]) "T"] :=
  ⟨(sentiment_score_or_zero failAnalyze (.obj [("text", .str "x")]) "T" (by decide)).2.1 rfl,
   (sentiment_score_or_zero okAnalyze (.obj [("text", .str "x")]) "T" (by decide)).1 1 rfl,
   ((sentiment_score_or_zero failAnalyze (.obj [("text", .str "x")]) "T" (by decide)).2.2
      wState 0).2.1⟩

/-- Claim C4 (amended: the required-fields branch is taken whenever either
field is absent **or otherwise falsy** — e.g. the empty string — not only
when it is absent; see the counterexample).  Every login response has HTTP
status 200; a falsy email or password yields `{success: false}` with the
required-fields message for every credential table (the table is not
consulted); with both fields truthy the result is `{success: true}` exactly
when the exact pair is in the static table, and `{success: false}` with the
invalid-credentials message otherwise. -/
theorem login_contract (email password : JSValue) :
    (∀ tbl, (apiLogin tbl email password).status = 200)
    ∧ ((truthy email = false ∨ truthy password = false) →
        ∀ tbl, apiLogin tbl email password
          = { status := 200, success := false,
              message := some "Email and password required" })
    ∧ (truthy email = true → truthy password = true →
        ((∃ u ∈ users, eqStrJS u.1 email = true ∧ eqStrJS u.2 password = true) →
            apiLogin users email password
              = { status := 200, success := true, message := none })
        ∧ ((∀ u ∈ users, ¬(eqStrJS u.1 email = true ∧ eqStrJS u.2 password = true)) →
            apiLogin users email password
              = { status := 200, success := false,
                  message := some "Invalid email or password" })) := by
  refine ⟨?_, ?_, ?_⟩
  · intro tbl
    simp only [apiLogin]
    split
    · rfl
    · split <;> rfl
  · intro hor tbl
    have hcond : (!truthy email || !truthy password) = true := by
      rcases hor with h | h <;> simp [h]
    simp [apiLogin, hcond]
  · intro he hp
    have hcond : (!truthy email || !truthy password) = false := by
      simp [he, hp]
    constructor
    · rintro ⟨u, hu, h1, h2⟩
      have hsome : (users.find? fun u => eqStrJS u.1 email && eqStrJS u.2 password).isSome := by
        rw [List.find?_isSome]
        exact ⟨u, hu, by simp [h1, h2]⟩
      cases hfind : users.find? (fun u => eqStrJS u.1 email && eqStrJS u.2 password) with
      | none => rw [hfind] at hsome; simp at hsome
      | some v => simp [apiLogin, hcond, hfind]
    · intro hall
      have hfind : users.find? (fun u => eqStrJS u.1 email && eqStrJS u.2 password) = none := by
        rw [List.find?_eq_none]
        intro u hu
        have hnu := hall u hu
        simp only [Bool.and_eq_true]
        exact fun hc => hnu ⟨hc.1, hc.2⟩
      simp [apiLogin, hcond, hfind]

/-- Witness for C4: the demo account logs in, an empty email yields the
required-fields message, and a wrong password yields the
invalid-credentials message. -/
theorem login_contract_witness :
    apiLogin users (.str "user@example.com") (.str "mypassword")
        = { status := 200, success := true, message := none }
    ∧ apiLogin users (.str "") (.str "pw")
        = { status := 200, success := false,
            message := some "Email and password required" }
    ∧ apiLogin users (.str "user@example.com") (.str "wrong")
        = { status := 200, success := false,
            message := some "Invalid email or password" } :=
  ⟨((login_contract (.str "user@example.com") (.str "mypassword")).2.2 rfl rfl).1
      ⟨("user@example.com", "mypassword"), by decide, rfl, rfl⟩,
   (login_contract (.str "") (.str "pw")).2.1 (Or.inl rfl) users,
   ((login_contract (.str "user@example.com") (.str "wrong")).2.2 rfl rfl).2 (by decide)⟩

/-- Claim C4, counterexample to the unamended statement: with the email
present as the empty string (not absent) and the pair not in the table, the
claim requires the invalid-credentials message, but the handler answers the
required-fields message. -/
theorem login_empty_email_counterexample :
    JSValue.str "" ≠ JSValue.undefined
    ∧ users.find? (fun u => eqStrJS u.1 (.str "") && eqStrJS u.2 (.str "x")) = none
    ∧ apiLogin users (.str "") (.str "x")
        = { status := 200, success := false,
            message := some "Email and password required" }
    ∧ (some "Email and password required" : Option String)
        ≠ some "Invalid email or password" :=
  ⟨fun h => JSValue.noConfusion h, rfl, rfl, by decide⟩

/-- Claim C5 (amended: only fields present with *truthy* values are
preserved; a present falsy field is normalized to its default like an
absent one — see the counterexample and claim C10).  For an object payload:
each omitted field gets its default — sender `"Anonymous"`, text `""`,
fileUrl `null`, timestamp the server clock reading at handling time
(`new Date().toISOString()`) — and each field present with a truthy value
is preserved. -/
theorem safeMsg_defaults (analyze : JSValue → Except Unit Int)
    (fields : List (String × JSValue)) (now : String) :
    (fields.lookup "sender" = none →
        (safeMsg analyze (.obj fields) now).sender = .str "Anonymous")
    ∧ (fields.lookup "text" = none →
        (safeMsg analyze (.obj fields) now).text = .str "")
    ∧ (fields.lookup "fileUrl" = none →
        (safeMsg analyze (.obj fields) now).fileUrl = .null)
    ∧ (fields.lookup "timestamp" = none →
        (safeMsg analyze (.obj fields) now).timestamp = .str now)
    ∧ (∀ v, fields.lookup "sender" = some v → truthy v = true →
        (safeMsg analyze (.obj fields) now).sender = v)
    ∧ (∀ v, fields.lookup "text" = some v → truthy v = true →
        (safeMsg analyze (.obj fields) now).text = v)
    ∧ (∀ v, fields.lookup "fileUrl" = some v → truthy v = true →
        (safeMsg analyze (.obj fields) now).fileUrl = v)
    ∧ (∀ v, fields.lookup "timestamp" = some v → truthy v = true →
        (safeMsg analyze (.obj fields) now).timestamp = v) := by
  refine ⟨?_, ?_, ?_, ?_, ?_, ?_, ?_, ?_⟩ <;>
    first
      | (intro h
         simp [safeMsg, buildSafeMsg, getField, jsOr, truthy, h,
           Except.toOption, Option.getD])
      | (intro v h hv
         simp [safeMsg, buildSafeMsg, getField, jsOr, h, hv,
           Except.toOption, Option.getD])

/-- Witness for C5: a payload with no fields gets all four defaults, and a
truthy present sender is preserved. -/
theorem safeMsg_defaults_witness :
    (safeMsg okAnalyze (.obj []) "T").sender = .str "Anonymous"
    ∧ (safeMsg okAnalyze (.obj []) "T").text = .str ""
    ∧ (safeMsg okAnalyze (.obj []) "T").fileUrl = .null
    ∧ (safeMsg okAnalyze (.obj []) "T").timestamp = .str "T"
    ∧ (safeMsg okAnalyze (.obj [("sender", .str "Alice")]) "T").sender = .str "Alice" :=
  ⟨(safeMsg_defaults okAnalyze [] "T").1 rfl,
   (safeMsg_defaults okAnalyze [] "T").2.1 rfl,
   (safeMsg_defaults okAnalyze [] "T").2.2.1 rfl,
   (safeMsg_defaults okAnalyze [] "T").2.2.2.1 rfl,
   (safeMsg_defaults okAnalyze [("sender", .str "Alice")] "T").2.2.2.2.1
      (.str "Alice") rfl rfl⟩

/-- Claim C5, counterexample to the unamended statement: `sender` is present
(as the empty string) yet the stored record carries `"Anonymous"`, not the
supplied value, so a present field is not always preserved. -/
theorem present_falsy_sender_counterexample :
    [("sender", JSValue.str ""), ("text", JSValue.str "hi")].lookup "sender"
        = some (JSValue.str "")
    ∧ (safeMsg okAnalyze (.obj [("sender", .str ""), ("text", .str "hi")]) "T").sender
        = .str "Anonymous"
    ∧ JSValue.str "Anonymous" ≠ JSValue.str "" :=
  ⟨rfl, rfl, by intro h; injection h with h'; exact absurd h' (by decide)⟩

/-- Claim C6 (amended: the handler cannot fail for any payload that is not
`null`/`undefined` — including primitives such as numbers, strings and
booleans, whose property accesses yield `undefined` — but the four field
accesses throw a `TypeError` on a `null` or `undefined` payload; see the
counterexample).  For every non-nullish payload the whole
normalize–score–append–broadcast pipeline runs to completion. -/
theorem chat_pipeline_total (analyze : JSValue → Except Unit Int)
    (payload : JSValue) (now : String) (h : isNullish payload = false) :
    ∃ m, chatMessageHandler analyze payload now = .ok m
      ∧ ∀ (st : ServerState) (src : Nat),
          (step analyze st (.chatMsg src payload now)).chatHistory
            = st.chatHistory ++ [m] := by
  refine ⟨safeMsg analyze payload now, chatMessageHandler_ok analyze payload now h, ?_⟩
  intro st src
  rw [step_chat_ok analyze st src payload now _ (chatMessageHandler_ok analyze payload now h)]

/-- Witness for C6: the pipeline completes on a number payload (a primitive,
malformed payload). -/
theorem chat_pipeline_total_witness :
    ∃ m, chatMessageHandler okAnalyze (.num 7) "T" = .ok m
      ∧ ∀ (st : ServerState) (src : Nat),
          (step okAnalyze st (.chatMsg src (.num 7) "T")).chatHistory
            = st.chatHistory ++ [m] :=
  chat_pipeline_total okAnalyze (.num 7) "T" (by decide)

/-- Claim C6, counterexample to the unamended statement: on a `null` payload
the handler's first field access throws a `TypeError` instead of coercing to
defaults, so the pipeline does not run to completion for every payload. -/
theorem null_payload_counterexample :
    chatMessageHandler okAnalyze .null "T" = .error .typeError := rfl

/-- Claim C7: a `POST /api/upload` request with no file part is answered
with status 400 and an `{error}` body, and the request leaves the whole
server state — the ChatLog and the set of stored uploaded files included —
unchanged. -/
theorem upload_no_file (now : Nat) (st : ServerState) :
    apiUpload none now st
        = ({ status := 400, body := .errorBody "No file uploaded" }, st)
    ∧ (apiUpload none now st).2.chatHistory = st.chatHistory
    ∧ (apiUpload none now st).2.uploads = st.uploads :=
  ⟨rfl, rfl, rfl⟩

/-- Claim C9 (amended: the `Date.now()` token is monotonic but not unique,
so only uploads whose millisecond timestamps differ are guaranteed distinct
names; two uploads in the same millisecond with the same sanitized original
name collide — see the counterexample).  The stored name combines the
`Date.now()` token and the original name with every whitespace run replaced
by an underscore (so the sanitized part contains no whitespace), the
response's fileUrl is the relative URL of that name under the public
`/uploads` prefix, and uploads with distinct timestamp tokens receive
distinct names. -/
theorem upload_name_structure :
    (∀ (now : Nat) (o : String), safeName now o = toString now ++ "-" ++ replaceWs o)
    ∧ (∀ (o : String) (c : Char), c ∈ (replaceWs o).data → c.isWhitespace = false)
    ∧ (∀ (f : UploadFile) (now : Nat) (st : ServerState),
        apiUpload (some f) now st
          = ({ status := 200,
               body := .fileUrlBody ("/uploads/" ++ safeName now f.originalname) },
             { st with uploads := st.uploads ++ [safeName now f.originalname] }))
    ∧ (∀ (n1 n2 : Nat) (o1 o2 : String), n1 ≠ n2 →
        safeName n1 o1 ≠ safeName n2 o2) := by
  refine ⟨fun now o => rfl, fun o c hc => replaceWsRuns_no_ws o.data false c hc,
    fun f now st => rfl, ?_⟩
  intro n1 n2 o1 o2 hne he
  exact hne (safeName_inj n1 n2 o1 o2 he).1

/-- Witness for C9: the sanitized part of a concrete upload name has no
whitespace, and names generated in two different milliseconds differ. -/
theorem upload_name_structure_witness :
    ('a'.isWhitespace = false) ∧ safeName 1 "x" ≠ safeName 2 "x" :=
  ⟨upload_name_structure.2.1 "a b" 'a' (by decide),
   upload_name_structure.2.2.2 1 2 "x" "x" (by decide)⟩

/-- Claim C9, counterexample to the unamended statement: two distinct
uploads of `"a.txt"` within the same millisecond (`Date.now() = 1000`)
store the same generated name, so distinct uploads do not always receive
distinct names. -/
theorem upload_name_collision_counterexample :
    ((apiUpload (some ⟨"a.txt"⟩) 1000
        (apiUpload (some ⟨"a.txt"⟩) 1000 initState).2).2).uploads
      = ["1000-a.txt", "1000-a.txt"]
    ∧ ¬ (["1000-a.txt", "1000-a.txt"] : List String).Nodup :=
  ⟨rfl, by decide⟩

/-- Claim C10: normalization is by falsiness, not absence: a field present
with any falsy value (empty string, `0`, `false`, `null`, `undefined`) is
replaced by its default — sender `"Anonymous"`, text `""`, fileUrl `null`,
timestamp the server clock reading — rather than preserved. -/
theorem falsy_fields_normalized (analyze : JSValue → Except Unit Int)
    (fields : List (String × JSValue)) (now : String) :
    (∀ v, fields.lookup "sender" = some v → truthy v = false →
        (safeMsg analyze (.obj fields) now).sender = .str "Anonymous")
    ∧ (∀ v, fields.lookup "text" = some v → truthy v = false →
        (safeMsg analyze (.obj fields) now).text = .str "")
    ∧ (∀ v, fields.lookup "fileUrl" = some v → truthy v = false →
        (safeMsg analyze (.obj fields) now).fileUrl = .null)
    ∧ (∀ v, fields.lookup "timestamp" = some v → truthy v = false →
        (safeMsg analyze (.obj fields) now).timestamp = .str now) := by
  refine ⟨?_, ?_, ?_, ?_⟩ <;>
    (intro v h hv
     simp [safeMsg, buildSafeMsg, getField, jsOr, h, hv,
       Except.toOption, Option.getD])

/-- Witness for C10: a sender given as `""` and a fileUrl given as `0` are
both stored as their defaults. -/
theorem falsy_fields_normalized_witness :
    (safeMsg okAnalyze (.obj [("sender", .str ""), ("fileUrl", .num 0)]) "T").sender
        = .str "Anonymous"
    ∧ (safeMsg okAnalyze (.obj [("sender", .str ""), ("fileUrl", .num 0)]) "T").fileUrl
        = .null :=
  ⟨(falsy_fields_normalized okAnalyze [("sender", .str ""), ("fileUrl", .num 0)] "T").1
      (.str "") rfl rfl,
   (falsy_fields_normalized okAnalyze [("sender", .str ""), ("fileUrl", .num 0)] "T").2.2.1
      (.num 0) rfl rfl⟩

end SIPChat
